import Mathlib

/-!
Shallow embedding of `ylearn/effect_interpreter/policy_interpreter.py`.

The file models the `PolicyInterpreter` class: its constructor (`__init__`),
`fit(data, est_model)` and `interpret()`.  Instance state is an explicit
record; a method that can raise returns `Except`, and since Python mutates
`self` in place, a raising `fit` returns the error together with the state
of the instance at the moment of the raise.

External collaborators that are not under `src/` (`convert2array` from
`ylearn/utils/_common.py`, `PolicyTree` from `ylearn/policy/policy_model.py`,
numpy's `reshape`) are modelled from the spec, as marked on their doc
comments.
-/

/-- A Python runtime value as stored in the interpreter's configuration
attributes.  The constructor stores values of any kind verbatim; we cover the
kinds that occur in the documented defaults (None, int, float, str).  Floats
are only ever stored, never computed with, so a rational stand-in is exact. -/
inductive PyVal where
  | vNone : PyVal
  | vInt : Int → PyVal
  | vFloat : ℚ → PyVal
  | vStr : String → PyVal
  deriving DecidableEq

/-- The kinds of Python exception the embedded methods can raise.
`assertionError s` is `AssertionError` with message `s` (the empty string for
a bare `assert cond`). -/
inductive PyError where
  | assertionError : String → PyError
  | typeError : String → PyError
  | notImplementedError : PyError
  deriving DecidableEq

/-- A numpy array: a shape together with its row-major data. -/
structure NDArray where
  shape : List Nat
  data : List Int
  deriving DecidableEq

/-- `a.ndim` in numpy: the number of dimensions. -/
def NDArray.ndim (a : NDArray) : Nat := a.shape.length

/-- Modelled from the spec: numpy's `a.reshape(n, -1)` (external library).
It returns a new 2-D array with the same data; the source computes it at
`policy_interpreter.py:201` and discards the result. -/
def NDArray.reshape2 (a : NDArray) (n : Nat) : NDArray :=
  { shape := [n, a.data.length / n], data := a.data }

/-- A tabular dataset with named integer-valued columns (`pandas.DataFrame`
at the granularity this module uses: row count plus named columns). -/
structure DataFrame where
  nrows : Nat
  cols : List (String × List Int)
  deriving DecidableEq

/-- The values of the column named `name` (defaulting when absent; the
claims only exercise present columns). -/
def DataFrame.col (df : DataFrame) (name : String) : List Int :=
  ((df.cols.find? fun p => p.1 == name).map Prod.snd).getD
    (List.replicate df.nrows 0)

/-- Modelled from the spec: `convert2array(data, covariate_columns,
outcome_columns) -> (v: float array n x f, y: float array n x o)`
(`ylearn/utils/_common.py`, not under src).  It selects the requested named
columns of `data` into two numeric arrays, one column per name, one row per
data row. -/
def convert2array (df : DataFrame) (xs ys : List String) : NDArray × NDArray :=
  (⟨[df.nrows, xs.length],
      ((List.range df.nrows).map fun i => xs.map fun c => (df.col c).getD i 0).flatten⟩,
   ⟨[df.nrows, ys.length],
      ((List.range df.nrows).map fun i => ys.map fun c => (df.col c).getD i 0).flatten⟩)

/-- The estimator collaborator contract from the spec: exposes `covariate`
(column names or None), `outcome` (column names), `_is_fitted`, and
`estimate(data, quantity=None, **kwargs) -> array`. -/
structure EstModel where
  covariate : Option (List String)
  outcome : List String
  _is_fitted : Bool
  estimate : DataFrame → NDArray

/-- Modelled from the spec: the external `PolicyTree` collaborator
(`ylearn/policy/policy_model.py`, not under src).  It is constructed with the
same eleven hyperparameters as the interpreter and exposes
`fit(data, covariate, effect_array)`; its internal split search is out of
scope, so fitting records the arguments the tree was fitted with. -/
structure PolicyTree where
  criterion : PyVal
  splitter : PyVal
  max_depth : PyVal
  min_samples_split : PyVal
  min_samples_leaf : PyVal
  random_state : PyVal
  max_leaf_nodes : PyVal
  max_features : PyVal
  min_impurity_decrease : PyVal
  ccp_alpha : PyVal
  min_weight_fraction_leaf : PyVal
  fit_data : Option DataFrame := none
  fit_covariate : Option (List String) := none
  fit_effect_array : Option NDArray := none
  deriving DecidableEq

/-- Modelled from the spec: `PolicyTree.fit(data, covariate, effect_array)
-> self` stores the fit arguments on the tree. -/
def PolicyTree.fit (t : PolicyTree) (data : DataFrame) (covariate : List String)
    (effect_array : NDArray) : PolicyTree :=
  { t with
      fit_data := some data
      fit_covariate := some covariate
      fit_effect_array := some effect_array }

/-- The instance state of a `PolicyInterpreter`: the eleven configuration
attributes set by `__init__`, plus the mutable attributes `_is_fitted`,
`treatment`, `outcome`, and the fit-time attributes `v` and `_tree`
(`none` while the Python attribute does not exist yet). -/
structure PolicyInterpreter where
  criterion : PyVal
  splitter : PyVal
  max_depth : PyVal
  min_samples_split : PyVal
  min_samples_leaf : PyVal
  random_state : PyVal
  max_leaf_nodes : PyVal
  max_features : PyVal
  min_impurity_decrease : PyVal
  ccp_alpha : PyVal
  min_weight_fraction_leaf : PyVal
  _is_fitted : Bool
  treatment : PyVal
  outcome : PyVal
  v : Option NDArray
  _tree : Option PolicyTree
  deriving DecidableEq

/-- `PolicyInterpreter.__init__` (policy_interpreter.py:58-167): stores the
eleven keyword arguments verbatim and sets `_is_fitted = False`,
`treatment = None`, `outcome = None`.  Arguments are in the Python
signature's order. -/
def PolicyInterpreter.init
    (criterion splitter max_depth min_samples_split min_samples_leaf
     random_state max_leaf_nodes max_features min_impurity_decrease
     ccp_alpha min_weight_fraction_leaf : PyVal) : PolicyInterpreter :=
  { _is_fitted := false
    treatment := PyVal.vNone
    outcome := PyVal.vNone
    criterion := criterion
    splitter := splitter
    max_depth := max_depth
    min_samples_split := min_samples_split
    min_samples_leaf := min_samples_leaf
    max_leaf_nodes := max_leaf_nodes
    min_impurity_decrease := min_impurity_decrease
    ccp_alpha := ccp_alpha
    random_state := random_state
    min_weight_fraction_leaf := min_weight_fraction_leaf
    max_features := max_features
    v := none
    _tree := none }

/-- `PolicyInterpreter()` with every argument left at its documented default. -/
def PolicyInterpreter.initDefault : PolicyInterpreter :=
  PolicyInterpreter.init (PyVal.vStr "policy_reg") (PyVal.vStr "best")
    PyVal.vNone (PyVal.vInt 2) (PyVal.vInt 1) (PyVal.vInt 2022) PyVal.vNone
    PyVal.vNone (PyVal.vFloat 0) (PyVal.vFloat 0) (PyVal.vFloat 0)

/-- Message of the first assertion in `fit` (policy_interpreter.py:191). -/
def covariateMsg : String := "Need covariate to interpret the causal effect."

/-- Message of the assertion in `interpret` (policy_interpreter.py:228). -/
def notFittedMsg : String :=
  "The model is not fitted yet. Please use the fit method first."

/-- The `TypeError` message CPython produces for `NotImplemented()`. -/
def notCallableMsg : String := "NotImplementedType object is not callable"

/-- `PolicyInterpreter.fit(data, est_model)` (policy_interpreter.py:169-225),
statement by statement.  A raise returns `Except.error (e, s)` where `s` is
the instance state at the moment of the raise (Python mutates in place, so
`self.v` set at line 196 survives a raise at line 197). -/
def PolicyInterpreter.fit (self : PolicyInterpreter) (data : DataFrame)
    (est_model : EstModel) :
    Except (PyError × PolicyInterpreter) PolicyInterpreter :=
  -- covariate = est_model.covariate ; outcome = est_model.outcome
  let outcome := est_model.outcome
  match est_model.covariate with
  | none =>
    -- assert covariate is not None, 'Need covariate ...'
    Except.error (PyError.assertionError covariateMsg, self)
  | some covariate =>
    if est_model._is_fitted then
      -- v, y = convert2array(data, covariate, outcome) ; n, _y_d = y.shape
      let vy := convert2array data covariate outcome
      let v := vy.1
      let y := vy.2
      let n := y.shape.getD 0 0
      let _y_d := y.shape.getD 1 0
      -- self.v = v   (line 196: before the univariate assertion)
      let self := { self with v := some v }
      if _y_d = 1 then
        -- causal_effect = est_model.estimate(data=data, quantity=None, **kwargs)
        let causal_effect := est_model.estimate data
        -- if causal_effect.ndim == 3: causal_effect.reshape(n, -1)
        -- (line 201: the reshape result is not assigned to anything)
        let _reshaped :=
          if causal_effect.ndim = 3 then causal_effect.reshape2 n
          else causal_effect
        let tree : PolicyTree :=
          { criterion := self.criterion
            splitter := self.splitter
            max_depth := self.max_depth
            min_samples_split := self.min_samples_split
            min_samples_leaf := self.min_samples_leaf
            random_state := self.random_state
            max_leaf_nodes := self.max_leaf_nodes
            max_features := self.max_features
            min_impurity_decrease := self.min_impurity_decrease
            ccp_alpha := self.ccp_alpha
            min_weight_fraction_leaf := self.min_weight_fraction_leaf }
        -- self._tree.fit(data=data, covariate=covariate, effect_array=causal_effect)
        let tree := tree.fit data covariate causal_effect
        let self := { self with _tree := some tree, _is_fitted := true }
        -- return self
        Except.ok self
      else
        -- assert _y_d == 1  (bare assert: empty message)
        Except.error (PyError.assertionError "", self)
    else
      -- assert est_model._is_fitted  (bare assert: empty message)
      Except.error (PyError.assertionError "", self)

/-- `PolicyInterpreter.interpret()` (policy_interpreter.py:227-230). -/
def PolicyInterpreter.interpret (self : PolicyInterpreter) :
    Except PyError Unit :=
  if self._is_fitted then
    -- Line 230 is `raise NotImplemented()`.  In Python `NotImplemented` is a
    -- non-callable singleton (not an exception class), so evaluating
    -- `NotImplemented()` raises TypeError, not NotImplementedError.
    Except.error (PyError.typeError notCallableMsg)
  else
    -- assert self._is_fitted, 'The model is not fitted yet. ...'
    Except.error (PyError.assertionError notFittedMsg)

/-- The `PolicyTree` that a successful `fit` constructs and fits: the
interpreter's eleven configuration values, fitted on `data`, the covariate
column names, and the effect array as `estimate` returned it. -/
def expectedTree (self : PolicyInterpreter) (data : DataFrame)
    (cov : List String) (eff : NDArray) : PolicyTree :=
  { criterion := self.criterion
    splitter := self.splitter
    max_depth := self.max_depth
    min_samples_split := self.min_samples_split
    min_samples_leaf := self.min_samples_leaf
    random_state := self.random_state
    max_leaf_nodes := self.max_leaf_nodes
    max_features := self.max_features
    min_impurity_decrease := self.min_impurity_decrease
    ccp_alpha := self.ccp_alpha
    min_weight_fraction_leaf := self.min_weight_fraction_leaf
    fit_data := some data
    fit_covariate := some cov
    fit_effect_array := some eff }

/-- The state a successful `fit` leaves the instance in. -/
def fitResult (self : PolicyInterpreter) (data : DataFrame)
    (est_model : EstModel) (cov : List String) : PolicyInterpreter :=
  { self with
      v := some (convert2array data cov est_model.outcome).1
      _tree := some (expectedTree self data cov (est_model.estimate data))
      _is_fitted := true }

/-- Helper: when all three preconditions hold, `fit` returns `ok` with
exactly the state `fitResult` describes. -/
theorem fit_ok_spec (self : PolicyInterpreter) (data : DataFrame)
    (est_model : EstModel) (cov : List String)
    (hc : est_model.covariate = some cov)
    (hf : est_model._is_fitted = true)
    (hy : ((convert2array data cov est_model.outcome).2).shape.getD 1 0 = 1) :
    self.fit data est_model = Except.ok (fitResult self data est_model cov) := by
  unfold PolicyInterpreter.fit
  rw [hc]
  simp only [hf, if_true]
  rw [if_pos hy]
  simp [fitResult, expectedTree, PolicyTree.fit]

/-- Helper: a failing univariate-outcome assertion raises the bare
`AssertionError` with `self.v` already overwritten (source order: line 196
before line 197). -/
theorem fit_ydim_fail_spec (self : PolicyInterpreter) (data : DataFrame)
    (est_model : EstModel) (cov : List String)
    (hc : est_model.covariate = some cov)
    (hf : est_model._is_fitted = true)
    (hy : ((convert2array data cov est_model.outcome).2).shape.getD 1 0 ≠ 1) :
    self.fit data est_model =
      Except.error (PyError.assertionError "",
        { self with v := some (convert2array data cov est_model.outcome).1 }) := by
  unfold PolicyInterpreter.fit
  rw [hc]
  simp only [hf, if_true]
  rw [if_neg hy]

/-- In the conversion model, the resolved outcome array `y` has
`y.shape[1]` equal to the number of requested outcome columns. -/
theorem convert2array_y_dim (df : DataFrame) (xs ys : List String) :
    ((convert2array df xs ys).2).shape.getD 1 0 = ys.length := rfl

/- Concrete fixtures used by the witnesses. -/

/-- A 2-row dataframe with a covariate column and an outcome column. -/
def dfA : DataFrame := { nrows := 2, cols := [("x", [0, 1]), ("y", [5, 7])] }

/-- A 1-row dataframe with different column names. -/
def dfB : DataFrame := { nrows := 1, cols := [("u", [4]), ("w", [9])] }

/-- A fitted estimator over `dfA`-style data whose `estimate` returns a 2-D
`n x 1` array. -/
def estA : EstModel :=
  { covariate := some ["x"], outcome := ["y"], _is_fitted := true,
    estimate := fun df => { shape := [df.nrows, 1], data := List.replicate df.nrows 3 } }

/-- A fitted estimator over `dfB`-style data. -/
def estB : EstModel :=
  { covariate := some ["u"], outcome := ["w"], _is_fitted := true,
    estimate := fun df => { shape := [df.nrows, 2], data := List.replicate (2 * df.nrows) 1 } }

/-- A fitted estimator whose `estimate` returns a 3-D `n x 1 x 2` array. -/
def est3d : EstModel :=
  { covariate := some ["x"], outcome := ["y"], _is_fitted := true,
    estimate := fun df => { shape := [df.nrows, 1, 2], data := List.replicate (2 * df.nrows) 4 } }

/-- An estimator whose `_is_fitted` flag is false. -/
def estUnfitted : EstModel :=
  { covariate := some ["x"], outcome := ["y"], _is_fitted := false,
    estimate := fun _ => { shape := [0], data := [] } }

/-- A fitted estimator declaring two outcome columns. -/
def estTwoOutcomes : EstModel :=
  { covariate := some ["x"], outcome := ["y", "z"], _is_fitted := true,
    estimate := fun df => { shape := [df.nrows, 1], data := List.replicate df.nrows 0 } }

/-- Claim C8: for every combination of argument values, the constructor
stores each of the eleven configuration fields verbatim in the corresponding
attribute, with no validation or transformation of any value. -/
theorem init_stores_config_verbatim
    (c sp md mss msl rs mln mf mid ca mwfl : PyVal) :
    (PolicyInterpreter.init c sp md mss msl rs mln mf mid ca mwfl).criterion = c ∧
    (PolicyInterpreter.init c sp md mss msl rs mln mf mid ca mwfl).splitter = sp ∧
    (PolicyInterpreter.init c sp md mss msl rs mln mf mid ca mwfl).max_depth = md ∧
    (PolicyInterpreter.init c sp md mss msl rs mln mf mid ca mwfl).min_samples_split = mss ∧
    (PolicyInterpreter.init c sp md mss msl rs mln mf mid ca mwfl).min_samples_leaf = msl ∧
    (PolicyInterpreter.init c sp md mss msl rs mln mf mid ca mwfl).random_state = rs ∧
    (PolicyInterpreter.init c sp md mss msl rs mln mf mid ca mwfl).max_leaf_nodes = mln ∧
    (PolicyInterpreter.init c sp md mss msl rs mln mf mid ca mwfl).max_features = mf ∧
    (PolicyInterpreter.init c sp md mss msl rs mln mf mid ca mwfl).min_impurity_decrease = mid ∧
    (PolicyInterpreter.init c sp md mss msl rs mln mf mid ca mwfl).ccp_alpha = ca ∧
    (PolicyInterpreter.init c sp md mss msl rs mln mf mid ca mwfl).min_weight_fraction_leaf = mwfl :=
  ⟨rfl, rfl, rfl, rfl, rfl, rfl, rfl, rfl, rfl, rfl, rfl⟩

/-- Claim C10: for every configuration, a fresh instance has `_is_fitted`
false and `treatment`, `outcome` set to None, so `interpret()` on it always
fails with the "not fitted" assertion error. -/
theorem fresh_instance_is_unfitted
    (c sp md mss msl rs mln mf mid ca mwfl : PyVal) :
    (PolicyInterpreter.init c sp md mss msl rs mln mf mid ca mwfl)._is_fitted = false ∧
    (PolicyInterpreter.init c sp md mss msl rs mln mf mid ca mwfl).treatment = PyVal.vNone ∧
    (PolicyInterpreter.init c sp md mss msl rs mln mf mid ca mwfl).outcome = PyVal.vNone ∧
    (PolicyInterpreter.init c sp md mss msl rs mln mf mid ca mwfl).interpret =
      Except.error (PyError.assertionError notFittedMsg) :=
  ⟨rfl, rfl, rfl, rfl⟩

/-- Claim C5: whenever `est_model._is_fitted` is false, `fit` raises,
regardless of every other input (if the covariate is also missing, the
covariate assertion fires first; otherwise the `_is_fitted` assertion). -/
theorem fit_raises_when_estimator_unfitted (self : PolicyInterpreter)
    (data : DataFrame) (est_model : EstModel)
    (h : est_model._is_fitted = false) :
    ∃ e s, self.fit data est_model = Except.error (e, s) := by
  cases hc : est_model.covariate with
  | none =>
    exact ⟨PyError.assertionError covariateMsg, self,
      by simp [PolicyInterpreter.fit, hc]⟩
  | some cov =>
    exact ⟨PyError.assertionError "", self,
      by simp [PolicyInterpreter.fit, hc, h]⟩

/-- Witness for C5: a concrete unfitted estimator makes `fit` raise. -/
theorem fit_raises_when_estimator_unfitted_witness :
    estUnfitted._is_fitted = false ∧
    (∃ e s, PolicyInterpreter.initDefault.fit dfA estUnfitted =
      Except.error (e, s)) :=
  ⟨by decide,
    fit_raises_when_estimator_unfitted PolicyInterpreter.initDefault dfA
      estUnfitted (by decide)⟩

/-- Claim C6: with a covariate present and a fitted estimator, `fit` raises
whenever the resolved outcome array `y` has `y.shape[1] != 1`. -/
theorem fit_raises_on_multicolumn_outcome (self : PolicyInterpreter)
    (data : DataFrame) (est_model : EstModel) (cov : List String)
    (hc : est_model.covariate = some cov)
    (hf : est_model._is_fitted = true)
    (hy : ((convert2array data cov est_model.outcome).2).shape.getD 1 0 ≠ 1) :
    ∃ e s, self.fit data est_model = Except.error (e, s) :=
  ⟨PyError.assertionError "",
    { self with v := some (convert2array data cov est_model.outcome).1 },
    fit_ydim_fail_spec self data est_model cov hc hf hy⟩

/-- Witness for C6: a fitted estimator declaring two outcome columns. -/
theorem fit_raises_on_multicolumn_outcome_witness :
    estTwoOutcomes.covariate = some ["x"] ∧
    estTwoOutcomes._is_fitted = true ∧
    ((convert2array dfA ["x"] estTwoOutcomes.outcome).2).shape.getD 1 0 ≠ 1 ∧
    (∃ e s, PolicyInterpreter.initDefault.fit dfA estTwoOutcomes =
      Except.error (e, s)) :=
  ⟨rfl, rfl, by decide,
    fit_raises_on_multicolumn_outcome PolicyInterpreter.initDefault dfA
      estTwoOutcomes ["x"] rfl rfl (by decide)⟩

/-- Claim C9: `fit` assigns `self.v` before the univariate-outcome check, so
a call that passes the covariate and fitted-estimator checks but fails
`y.shape[1] == 1` leaves `self.v` overwritten with the newly extracted
covariate matrix while `_is_fitted` stays false. -/
theorem fit_overwrites_v_before_outcome_check (self : PolicyInterpreter)
    (data : DataFrame) (est_model : EstModel) (cov : List String)
    (hfresh : self._is_fitted = false)
    (hc : est_model.covariate = some cov)
    (hf : est_model._is_fitted = true)
    (hy : ((convert2array data cov est_model.outcome).2).shape.getD 1 0 ≠ 1) :
    ∃ s, self.fit data est_model =
        Except.error (PyError.assertionError "", s) ∧
      s.v = some (convert2array data cov est_model.outcome).1 ∧
      s._is_fitted = false :=
  ⟨{ self with v := some (convert2array data cov est_model.outcome).1 },
    fit_ydim_fail_spec self data est_model cov hc hf hy, rfl, hfresh⟩

/-- Witness for C9: the failing call on a fresh default interpreter has
already stored the covariate matrix in `v`. -/
theorem fit_overwrites_v_before_outcome_check_witness :
    PolicyInterpreter.initDefault._is_fitted = false ∧
    estTwoOutcomes.covariate = some ["x"] ∧
    estTwoOutcomes._is_fitted = true ∧
    ((convert2array dfA ["x"] estTwoOutcomes.outcome).2).shape.getD 1 0 ≠ 1 ∧
    (∃ s, PolicyInterpreter.initDefault.fit dfA estTwoOutcomes =
        Except.error (PyError.assertionError "", s) ∧
      s.v = some (convert2array dfA ["x"] estTwoOutcomes.outcome).1 ∧
      s._is_fitted = false) :=
  ⟨rfl, rfl, rfl, by decide,
    fit_overwrites_v_before_outcome_check PolicyInterpreter.initDefault dfA
      estTwoOutcomes ["x"] rfl rfl rfl (by decide)⟩

/-- Claim C1: when `est_model.estimate` returns a 3-D array (and the fit
preconditions hold), the array handed to the policy tree's `fit` as
`effect_array` is the original array unchanged: it still has 3 dimensions,
and in particular it is not the `(n, -1)` reshape that line 201 computes and
discards. -/
theorem fit_passes_3d_effect_unflattened (self : PolicyInterpreter)
    (data : DataFrame) (est_model : EstModel) (cov : List String)
    (hc : est_model.covariate = some cov)
    (hf : est_model._is_fitted = true)
    (hy : ((convert2array data cov est_model.outcome).2).shape.getD 1 0 = 1)
    (h3 : (est_model.estimate data).ndim = 3) :
    ∃ s t, self.fit data est_model = Except.ok s ∧ s._tree = some t ∧
      t.fit_effect_array = some (est_model.estimate data) ∧
      (est_model.estimate data).ndim = 3 ∧
      t.fit_effect_array ≠ some ((est_model.estimate data).reshape2
        (((convert2array data cov est_model.outcome).2).shape.getD 0 0)) := by
  refine ⟨fitResult self data est_model cov,
    expectedTree self data cov (est_model.estimate data),
    fit_ok_spec self data est_model cov hc hf hy, rfl, rfl, h3, ?_⟩
  intro hcontra
  have h1 : est_model.estimate data =
      (est_model.estimate data).reshape2
        (((convert2array data cov est_model.outcome).2).shape.getD 0 0) := by
    simpa [expectedTree] using hcontra
  have h2 := congrArg NDArray.ndim h1
  rw [h3] at h2
  simp [NDArray.ndim, NDArray.reshape2] at h2

/-- Witness for C1: a concrete estimator returning a `2 x 1 x 2` array. -/
theorem fit_passes_3d_effect_unflattened_witness :
    est3d.covariate = some ["x"] ∧
    est3d._is_fitted = true ∧
    ((convert2array dfA ["x"] est3d.outcome).2).shape.getD 1 0 = 1 ∧
    (est3d.estimate dfA).ndim = 3 ∧
    (∃ s t, PolicyInterpreter.initDefault.fit dfA est3d = Except.ok s ∧
      s._tree = some t ∧
      t.fit_effect_array = some (est3d.estimate dfA) ∧
      (est3d.estimate dfA).ndim = 3 ∧
      t.fit_effect_array ≠ some ((est3d.estimate dfA).reshape2
        (((convert2array dfA ["x"] est3d.outcome).2).shape.getD 0 0))) :=
  ⟨rfl, rfl, by decide, by decide,
    fit_passes_3d_effect_unflattened PolicyInterpreter.initDefault dfA est3d
      ["x"] rfl rfl (by decide) (by decide)⟩

/-- Claim C2: under the three preconditions, `fit` constructs a new
`PolicyTree` carrying exactly the interpreter's eleven stored
hyperparameters, fits it on `(data, covariate, effect array)`, sets
`_is_fitted` to true, stores the covariate matrix in `v`, and returns the
same instance (its configuration and its `treatment`/`outcome` attributes
unchanged). -/
theorem fit_success_behavior (self : PolicyInterpreter) (data : DataFrame)
    (est_model : EstModel) (cov : List String)
    (hc : est_model.covariate = some cov)
    (hf : est_model._is_fitted = true)
    (hy : ((convert2array data cov est_model.outcome).2).shape.getD 1 0 = 1) :
    ∃ s, self.fit data est_model = Except.ok s ∧
      s._is_fitted = true ∧
      s.v = some (convert2array data cov est_model.outcome).1 ∧
      s.criterion = self.criterion ∧
      s.treatment = self.treatment ∧
      s.outcome = self.outcome ∧
      ∃ t, s._tree = some t ∧
        t.criterion = self.criterion ∧
        t.splitter = self.splitter ∧
        t.max_depth = self.max_depth ∧
        t.min_samples_split = self.min_samples_split ∧
        t.min_samples_leaf = self.min_samples_leaf ∧
        t.random_state = self.random_state ∧
        t.max_leaf_nodes = self.max_leaf_nodes ∧
        t.max_features = self.max_features ∧
        t.min_impurity_decrease = self.min_impurity_decrease ∧
        t.ccp_alpha = self.ccp_alpha ∧
        t.min_weight_fraction_leaf = self.min_weight_fraction_leaf ∧
        t.fit_data = some data ∧
        t.fit_covariate = some cov ∧
        t.fit_effect_array = some (est_model.estimate data) :=
  ⟨fitResult self data est_model cov,
    fit_ok_spec self data est_model cov hc hf hy,
    rfl, rfl, rfl, rfl, rfl,
    expectedTree self data cov (est_model.estimate data),
    rfl, rfl, rfl, rfl, rfl, rfl, rfl, rfl, rfl, rfl, rfl, rfl, rfl, rfl, rfl⟩

/-- Witness for C2: the default interpreter fitted on `dfA` with `estA`. -/
theorem fit_success_behavior_witness :
    estA.covariate = some ["x"] ∧
    estA._is_fitted = true ∧
    ((convert2array dfA ["x"] estA.outcome).2).shape.getD 1 0 = 1 ∧
    (∃ s, PolicyInterpreter.initDefault.fit dfA estA = Except.ok s ∧
      s._is_fitted = true ∧
      s.v = some (convert2array dfA ["x"] estA.outcome).1 ∧
      s.criterion = PolicyInterpreter.initDefault.criterion ∧
      s.treatment = PolicyInterpreter.initDefault.treatment ∧
      s.outcome = PolicyInterpreter.initDefault.outcome ∧
      ∃ t, s._tree = some t ∧
        t.criterion = PolicyInterpreter.initDefault.criterion ∧
        t.splitter = PolicyInterpreter.initDefault.splitter ∧
        t.max_depth = PolicyInterpreter.initDefault.max_depth ∧
        t.min_samples_split = PolicyInterpreter.initDefault.min_samples_split ∧
        t.min_samples_leaf = PolicyInterpreter.initDefault.min_samples_leaf ∧
        t.random_state = PolicyInterpreter.initDefault.random_state ∧
        t.max_leaf_nodes = PolicyInterpreter.initDefault.max_leaf_nodes ∧
        t.max_features = PolicyInterpreter.initDefault.max_features ∧
        t.min_impurity_decrease = PolicyInterpreter.initDefault.min_impurity_decrease ∧
        t.ccp_alpha = PolicyInterpreter.initDefault.ccp_alpha ∧
        t.min_weight_fraction_leaf = PolicyInterpreter.initDefault.min_weight_fraction_leaf ∧
        t.fit_data = some dfA ∧
        t.fit_covariate = some ["x"] ∧
        t.fit_effect_array = some (estA.estimate dfA)) :=
  ⟨rfl, rfl, by decide,
    fit_success_behavior PolicyInterpreter.initDefault dfA estA ["x"]
      rfl rfl (by decide)⟩

/-- Claim C3 (documents the defect): before `fit`, `interpret()` raises the
"not fitted" assertion; after a successful `fit` it still raises and never
returns — but line 230, `raise NotImplemented()`, calls the non-callable
`NotImplemented` singleton, so the exception is a `TypeError`, not a
"not implemented" error. -/
theorem interpret_after_fit_raises_typeError :
    PolicyInterpreter.initDefault.interpret =
      Except.error (PyError.assertionError notFittedMsg) ∧
    (∃ s, PolicyInterpreter.initDefault.fit dfA estA = Except.ok s ∧
      s.interpret = Except.error (PyError.typeError notCallableMsg)) ∧
    PyError.typeError notCallableMsg ≠ PyError.notImplementedError :=
  ⟨rfl,
    ⟨fitResult PolicyInterpreter.initDefault dfA estA ["x"],
      fit_ok_spec PolicyInterpreter.initDefault dfA estA ["x"] rfl rfl
        (by decide),
      rfl⟩,
    by decide⟩

/-- Claim C4: if any of the three preconditions fails, `fit` raises before
any policy tree is constructed (`_tree` is untouched) and a fresh instance
is not left fit-marked (`_is_fitted` remains false). -/
theorem fit_precondition_failure_no_tree (self : PolicyInterpreter)
    (data : DataFrame) (est_model : EstModel)
    (hfresh : self._is_fitted = false)
    (h : est_model.covariate = none ∨ est_model._is_fitted = false ∨
      est_model.outcome.length ≠ 1) :
    ∃ e s, self.fit data est_model = Except.error (e, s) ∧
      s._tree = self._tree ∧ s._is_fitted = false := by
  rcases h with h | h | h
  · exact ⟨PyError.assertionError covariateMsg, self,
      by simp [PolicyInterpreter.fit, h], rfl, hfresh⟩
  · cases hc : est_model.covariate with
    | none =>
      exact ⟨PyError.assertionError covariateMsg, self,
        by simp [PolicyInterpreter.fit, hc], rfl, hfresh⟩
    | some cov =>
      exact ⟨PyError.assertionError "", self,
        by simp [PolicyInterpreter.fit, hc, h], rfl, hfresh⟩
  · cases hc : est_model.covariate with
    | none =>
      exact ⟨PyError.assertionError covariateMsg, self,
        by simp [PolicyInterpreter.fit, hc], rfl, hfresh⟩
    | some cov =>
      cases hf : est_model._is_fitted with
      | false =>
        exact ⟨PyError.assertionError "", self,
          by simp [PolicyInterpreter.fit, hc, hf], rfl, hfresh⟩
      | true =>
        have hy : ((convert2array data cov est_model.outcome).2).shape.getD 1 0 ≠ 1 := h
        exact ⟨PyError.assertionError "",
          { self with v := some (convert2array data cov est_model.outcome).1 },
          fit_ydim_fail_spec self data est_model cov hc hf hy, rfl, hfresh⟩

/-- Witness for C4: an unfitted estimator on a fresh default interpreter. -/
theorem fit_precondition_failure_no_tree_witness :
    PolicyInterpreter.initDefault._is_fitted = false ∧
    (estUnfitted.covariate = none ∨ estUnfitted._is_fitted = false ∨
      estUnfitted.outcome.length ≠ 1) ∧
    (∃ e s, PolicyInterpreter.initDefault.fit dfA estUnfitted =
        Except.error (e, s) ∧
      s._tree = PolicyInterpreter.initDefault._tree ∧
      s._is_fitted = false) :=
  ⟨rfl, by decide,
    fit_precondition_failure_no_tree PolicyInterpreter.initDefault dfA
      estUnfitted rfl (by decide)⟩

/-- Claim C7: for valid inputs, fitting twice leaves the fitted state
(`v`, `_tree`, `_is_fitted`) equal to the state the second call alone
produces from the same starting instance: refitting replaces, it does not
accumulate. -/
theorem fit_twice_equals_second_fit (s : PolicyInterpreter)
    (d1 d2 : DataFrame) (e1 e2 : EstModel) (c1 c2 : List String)
    (hc1 : e1.covariate = some c1)
    (hf1 : e1._is_fitted = true)
    (hy1 : ((convert2array d1 c1 e1.outcome).2).shape.getD 1 0 = 1)
    (hc2 : e2.covariate = some c2)
    (hf2 : e2._is_fitted = true)
    (hy2 : ((convert2array d2 c2 e2.outcome).2).shape.getD 1 0 = 1) :
    ∃ s1 s12 s2, s.fit d1 e1 = Except.ok s1 ∧
      s1.fit d2 e2 = Except.ok s12 ∧
      s.fit d2 e2 = Except.ok s2 ∧
      s12.v = s2.v ∧ s12._tree = s2._tree ∧ s12._is_fitted = s2._is_fitted :=
  ⟨fitResult s d1 e1 c1,
    fitResult (fitResult s d1 e1 c1) d2 e2 c2,
    fitResult s d2 e2 c2,
    fit_ok_spec s d1 e1 c1 hc1 hf1 hy1,
    fit_ok_spec (fitResult s d1 e1 c1) d2 e2 c2 hc2 hf2 hy2,
    fit_ok_spec s d2 e2 c2 hc2 hf2 hy2,
    rfl, rfl, rfl⟩

/-- Witness for C7: two successive valid fits on different data and
estimators. -/
theorem fit_twice_equals_second_fit_witness :
    estA.covariate = some ["x"] ∧ estA._is_fitted = true ∧
    ((convert2array dfA ["x"] estA.outcome).2).shape.getD 1 0 = 1 ∧
    estB.covariate = some ["u"] ∧ estB._is_fitted = true ∧
    ((convert2array dfB ["u"] estB.outcome).2).shape.getD 1 0 = 1 ∧
    (∃ s1 s12 s2, PolicyInterpreter.initDefault.fit dfA estA = Except.ok s1 ∧
      s1.fit dfB estB = Except.ok s12 ∧
      PolicyInterpreter.initDefault.fit dfB estB = Except.ok s2 ∧
      s12.v = s2.v ∧ s12._tree = s2._tree ∧ s12._is_fitted = s2._is_fitted) :=
  ⟨rfl, rfl, by decide, rfl, rfl, by decide,
    fit_twice_equals_second_fit PolicyInterpreter.initDefault dfA dfB estA
      estB ["x"] ["u"] rfl rfl (by decide) rfl rfl (by decide)⟩
